import Mathlib

/-!
Shallow embedding of the connection-descriptor construction logic of the
snowflake-grafana-datasource repository (pkg/snowflake.go and its tests),
together with proofs of the specification claims.

Strings are modelled as Lean `String`s (lists of characters); Go's
byte-oriented operations agree with the character-level model on the ASCII
data these functions handle, and UTF-8 byte sequences are computed
explicitly where percent-encoding needs them.
-/

namespace Snowflake

/-! ### Percent-escaping, as implemented by Go's net/url -/

/-- Uppercase hexadecimal digit for a value below 16, as used by Go's
percent-encoder. -/
def hexDigitU (n : Nat) : Char :=
  if n < 10 then Char.ofNat (48 + n) else Char.ofNat (55 + n)

/-- UTF-8 byte sequence of a character, as a list of byte values. -/
def utf8Bytes (c : Char) : List Nat :=
  let n := c.toNat
  if n < 128 then [n]
  else if n < 2048 then [192 + n / 64, 128 + n % 64]
  else if n < 65536 then [224 + n / 4096, 128 + (n / 64) % 64, 128 + n % 64]
  else [240 + n / 262144, 128 + (n / 4096) % 64, 128 + (n / 64) % 64, 128 + n % 64]

/-- Percent-encoding of one byte: a percent sign followed by two uppercase
hex digits. -/
def percentByte (n : Nat) : List Char :=
  ['%', hexDigitU (n / 16), hexDigitU (n % 16)]

/-- Percent-encoding of all UTF-8 bytes of a character. -/
def percentEncodeChar (c : Char) : List Char :=
  ((utf8Bytes c).map percentByte).flatten

/-- Characters Go's net/url never escapes in any mode: ASCII alphanumerics
and the marks `-`, `_`, `.`, `~`. -/
def isUnreservedGo (c : Char) : Bool :=
  (decide (65 ≤ c.toNat) && decide (c.toNat ≤ 90)) ||
  (decide (97 ≤ c.toNat) && decide (c.toNat ≤ 122)) ||
  (decide (48 ≤ c.toNat) && decide (c.toNat ≤ 57)) ||
  c == '-' || c == '_' || c == '.' || c == '~'

/-- Per-character escaping of Go's url.QueryEscape (encodeQueryComponent
mode): unreserved characters kept, space turned into a plus sign,
everything else percent-encoded per UTF-8 byte. -/
def queryEscapeChar (c : Char) : List Char :=
  if isUnreservedGo c then [c]
  else if c == ' ' then ['+']
  else percentEncodeChar c

/-- Per-character escaping of Go's userinfo encoder (encodeUserPassword
mode, used by url.User / url.UserPassword): unreserved characters and the
sub-delimiters dollar, ampersand, plus, comma, semicolon, equals are kept;
everything else (in particular at-sign, slash, question mark, colon) is
percent-encoded per UTF-8 byte. -/
def userinfoEscapeChar (c : Char) : List Char :=
  if isUnreservedGo c || c == '$' || c == '&' || c == '+' || c == ',' ||
      c == ';' || c == '=' then [c]
  else percentEncodeChar c

/-- Escapes every character of a character list with the given
per-character escaper. -/
def escData (f : Char → List Char) : List Char → List Char
  | [] => []
  | c :: cs => f c ++ escData f cs

/-- Go's url.QueryEscape on a whole string. -/
def queryEscape (s : String) : String :=
  ⟨escData queryEscapeChar s.data⟩

/-- Go's userinfo escaping (escape with encodeUserPassword) on a whole
string; url.User(u).String() is escapeUserinfo u, and
url.UserPassword(u, p).String() is escapeUserinfo u followed by a colon
and escapeUserinfo p. -/
def escapeUserinfo (s : String) : String :=
  ⟨escData userinfoEscapeChar s.data⟩

/-! ### url.Values and its Encode method -/

/-- Lexicographic byte-order comparison on character lists; for the ASCII
keys used by this program it coincides with Go's sort.Strings order on
UTF-8 bytes. -/
def charListLe : List Char → List Char → Bool
  | [], _ => true
  | a :: as, b :: bs => decide (a.toNat < b.toNat) || (a == b && charListLe as bs)
  | _ :: _, [] => false

/-- The url.Values built by getConnectionString, modelled as a list of
key-value pairs in the order the Go code calls Add. Every key is added at
most once in this program, so a flat pair list is an exact model of the Go
map from keys to value slices. -/
def insertPair (p : String × String) : List (String × String) → List (String × String)
  | [] => [p]
  | q :: qs => if charListLe p.1.data q.1.data then p :: q :: qs else q :: insertPair p qs

/-- Insertion sort of key-value pairs by key, modelling the sorted key
iteration of Go's url.Values.Encode. -/
def sortPairs : List (String × String) → List (String × String)
  | [] => []
  | p :: ps => insertPair p (sortPairs ps)

/-- Form-encoding of one key-value pair, as url.Values.Encode does:
QueryEscape of the key, an equals sign, QueryEscape of the value. -/
def encodePair (p : String × String) : String :=
  queryEscape p.1 ++ "=" ++ queryEscape p.2

/-- Ampersand-joined encoding of a pair list (already sorted). -/
def encodePairsStr : List (String × String) → String
  | [] => ""
  | [p] => encodePair p
  | p :: q :: ps => encodePair p ++ "&" ++ encodePairsStr (q :: ps)

/-- Go's url.Values.Encode: pairs sorted by key, each form-encoded, joined
with ampersands. -/
def valuesEncode (v : List (String × String)) : String :=
  encodePairsStr (sortPairs v)

/-! ### The plugin configuration record and getConnectionString -/

/-- The pluginConfig struct of pkg/snowflake.go. -/
structure pluginConfig where
  Account : String := ""
  Username : String := ""
  Role : String := ""
  Warehouse : String := ""
  Database : String := ""
  Schema : String := ""
  ExtraConfig : String := ""
deriving DecidableEq, Repr

/-- The url.Values assembled by getConnectionString, in the order of the
Go Add calls: role, warehouse, database, schema, then QUERY_TAG when the
tag is non-empty, then authenticator and privateKey when a private key is
supplied. -/
def connParams (config : pluginConfig) (privateKey queryTag : String) :
    List (String × String) :=
  [("role", config.Role), ("warehouse", config.Warehouse),
   ("database", config.Database), ("schema", config.Schema)]
  ++ (if queryTag == "" then [] else [("QUERY_TAG", queryTag)])
  ++ (if privateKey.length == 0 then []
      else [("authenticator", "SNOWFLAKE_JWT"), ("privateKey", privateKey)])

/-- The credential-bearing part before the at-sign: with a non-empty
private key it is url.User(username).String(); otherwise it is
url.UserPassword(username, password).String(). -/
def userPassOf (config : pluginConfig) (password privateKey : String) : String :=
  if privateKey.length == 0 then
    escapeUserinfo config.Username ++ ":" ++ escapeUserinfo password
  else escapeUserinfo config.Username

/-- getConnectionString of pkg/snowflake.go: the Sprintf
"%s@%s?%s&%s" of the userinfo part, the account (verbatim), the encoded
parameters, and the extraConfig (verbatim). -/
def getConnectionString (config : pluginConfig) (password privateKey queryTag : String) :
    String :=
  userPassOf config password privateKey ++ "@" ++ config.Account ++ "?" ++
    valuesEncode (connParams config privateKey queryTag) ++ "&" ++ config.ExtraConfig

/-! ### Plugin context and the query-tag encoder -/

/-- The backend.User struct of the grafana plugin SDK: the four string
fields used by this program. -/
structure User where
  Name : String := ""
  Login : String := ""
  Email : String := ""
  Role : String := ""
deriving DecidableEq, Repr

/-- The backend.DataSourceInstanceSettings fields this program reads: the
raw JSON configuration bytes and the decrypted secure data map. The map is
modelled as an association list; lookup of an absent key yields the empty
string, as for a Go map of strings. -/
structure DataSourceInstanceSettings where
  JSONData : String := ""
  DecryptedSecureJSONData : List (String × String) := []
deriving DecidableEq, Repr

/-- Go map indexing with the zero-value default for missing keys. -/
def mapGet (m : List (String × String)) (k : String) : String :=
  match m with
  | [] => ""
  | (k₂, v) :: rest => if k₂ == k then v else mapGet rest k

/-- The backend.PluginContext fields this program reads: organization id,
optional user identity, and the data-source instance settings. The Go
field is a possibly-nil pointer; every code path modelled here is only
exercised with settings present, so the field is kept plain. -/
structure PluginContext where
  OrgID : Int := 0
  User : Option User := none
  DataSourceInstanceSettings : DataSourceInstanceSettings := {}
deriving DecidableEq, Repr

/-- The queryTagData struct of pkg/snowflake.go, the QUERY_TAG JSON
payload. -/
structure queryTagData where
  Job : String := ""
  OrgId : Int := 0
  UserLogin : String := ""
  UserName : String := ""
  UserEmail : String := ""
  UserRole : String := ""
  IsBackend : Bool := false
  IsAnonymous : Bool := false
deriving DecidableEq, Repr

/-- The record-building part of queryTagFromContext: job and org id always
set; with no user the backend flag is set; with a user, the anonymous flag
is set exactly when the user equals a User holding only its role (the Go
comparison of u against a User literal carrying just u.Role), and the four
identity fields are copied. -/
def queryTagRecord (pc : PluginContext) : queryTagData :=
  match pc.User with
  | none => { Job := "Grafana", OrgId := pc.OrgID, IsBackend := true }
  | some u =>
    { Job := "Grafana", OrgId := pc.OrgID,
      IsAnonymous := decide (({ Role := u.Role } : User) = u),
      UserName := u.Name, UserLogin := u.Login, UserEmail := u.Email,
      UserRole := u.Role }

/-- Lowercase hexadecimal digit, as used by Go's encoding/json for its
backslash-u escapes. -/
def hexDigitL (n : Nat) : Char :=
  if n < 10 then Char.ofNat (48 + n) else Char.ofNat (87 + n)

/-- Per-character escaping of Go's encoding/json string encoder with its
default HTML escaping: quote and backslash get backslash escapes, newline,
carriage return and tab get their short escapes, other control characters
get backslash-u escapes, the HTML-sensitive characters and the Unicode
line separators get backslash-u escapes, and everything else is kept. -/
def jsonEscapeChar (c : Char) : List Char :=
  if c == '"' then ['\\', '"']
  else if c == '\\' then ['\\', '\\']
  else if c == '<' then ['\\', 'u', '0', '0', '3', 'c']
  else if c == '>' then ['\\', 'u', '0', '0', '3', 'e']
  else if c == '&' then ['\\', 'u', '0', '0', '2', '6']
  else if c == '\n' then ['\\', 'n']
  else if c == '\r' then ['\\', 'r']
  else if c == '\t' then ['\\', 't']
  else if decide (c.toNat < 32) then
    ['\\', 'u', '0', '0', hexDigitL (c.toNat / 16), hexDigitL (c.toNat % 16)]
  else if c == (Char.ofNat 8232) then ['\\', 'u', '2', '0', '2', '8']
  else if c == (Char.ofNat 8233) then ['\\', 'u', '2', '0', '2', '9']
  else [c]

/-- JSON string literal: the escaped content between double quotes. -/
def jsonQuote (s : String) : String :=
  "\"" ++ (⟨escData jsonEscapeChar s.data⟩ : String) ++ "\""

/-- Comma-joined rendering of already-rendered JSON object members. -/
def jsonMembersStr : List String → String
  | [] => ""
  | [m] => m
  | m :: m₂ :: ms => m ++ "," ++ jsonMembersStr (m₂ :: ms)

/-- Marshaling of queryTagData by Go's encoding/json: members in struct
field order, with the omitempty fields dropped when they hold their zero
value. Every field is a string, an integer or a boolean, so marshaling is
total - encoding/json cannot fail on this struct type, which this model
reflects by returning the string directly. -/
def marshalQueryTagData (q : queryTagData) : String :=
  let members :=
    [jsonQuote "job" ++ ":" ++ jsonQuote q.Job,
     jsonQuote "org_id" ++ ":" ++ toString q.OrgId]
    ++ (if q.UserLogin == "" then [] else [jsonQuote "user_login" ++ ":" ++ jsonQuote q.UserLogin])
    ++ (if q.UserName == "" then [] else [jsonQuote "user_name" ++ ":" ++ jsonQuote q.UserName])
    ++ (if q.UserEmail == "" then [] else [jsonQuote "user_email" ++ ":" ++ jsonQuote q.UserEmail])
    ++ (if q.UserRole == "" then [] else [jsonQuote "user_role" ++ ":" ++ jsonQuote q.UserRole])
    ++ (if q.IsBackend then [jsonQuote "is_backend" ++ ":" ++ "true"] else [])
    ++ (if q.IsAnonymous then [jsonQuote "is_anonymous" ++ ":" ++ "true"] else [])
  "\x7b" ++ jsonMembersStr members ++ "\x7d"

/-- queryTagFromContext of pkg/snowflake.go: builds the tag record from
the plugin context and marshals it to JSON. The Except mirrors the Go
pair-of-string-and-error signature; the marshal step is total for this
struct type (strings, an int64 and bools always serialize), so the error
branch of the Go code is never taken. -/
def queryTagFromContext (pc : PluginContext) : Except String String :=
  .ok (marshalQueryTagData (queryTagRecord pc))

/-! ### The config decoder: encoding/json unmarshal into pluginConfig -/

/-- JSON whitespace per encoding/json: space, tab, newline, carriage
return. -/
def isJsonWs (c : Char) : Bool :=
  " \t\n\r".data.contains c

/-- Drops leading JSON whitespace. -/
def skipWs : List Char → List Char
  | [] => []
  | c :: cs => if isJsonWs c then skipWs cs else c :: cs

/-- Value of a single-character string escape, for the escapes this model
supports. -/
def jsonEscTable : List (Char × Char) :=
  [('"', '"'), ('\\', '\\'), ('/', '/'), ('n', '\n'),
   ('t', '\t'), ('r', '\r'), ('b', Char.ofNat 8), ('f', Char.ofNat 12)]

/-- Looks a string-escape character up in the table. -/
def jsonEscValue (c : Char) : Option Char :=
  (jsonEscTable.find? (fun p => p.1 == c)).map (fun p => p.2)

/-- Parses the rest of a JSON string literal, the opening quote already
consumed; returns the decoded content and the remaining input. Truncated
input fails with the message Go's encoding/json reports for truncated
documents. -/
def parseStringRest : List Char → Except String (String × List Char)
  | [] => .error "unexpected end of JSON input"
  | c :: cs =>
    if c == '"' then .ok ("", cs)
    else if c == '\\' then
      match cs with
      | [] => .error "unexpected end of JSON input"
      | e :: cs₂ =>
        match jsonEscValue e with
        | some v =>
          match parseStringRest cs₂ with
          | .ok (s, r) => .ok (String.singleton v ++ s, r)
          | .error msg => .error msg
        | none =>
          .error ("invalid character '" ++ String.singleton e ++ "' in string escape code")
    else
      match parseStringRest cs with
      | .ok (s, r) => .ok (String.singleton c ++ s, r)
      | .error msg => .error msg

/-- Parses the members of a non-empty JSON object whose values are string
literals (the shape pluginConfig is decoded from), starting right after
the opening brace or a separating comma; returns the key-value pairs and
the input remaining after the closing brace. Fuel bounds the recursion;
callers pass more fuel than there are input characters. Modelled from
Go's encoding/json restricted to objects of string values, with its error
text for truncated input reproduced verbatim. -/
def parseMembersAux : Nat → List Char → Except String (List (String × String) × List Char)
  | 0, _ => .error "unexpected end of JSON input"
  | fuel + 1, l =>
    match skipWs l with
    | [] => .error "unexpected end of JSON input"
    | c :: cs =>
      if c == '"' then
        match parseStringRest cs with
        | .error msg => .error msg
        | .ok (key, rest) =>
          match skipWs rest with
          | [] => .error "unexpected end of JSON input"
          | c₂ :: cs₂ =>
            if c₂ == ':' then
              match skipWs cs₂ with
              | [] => .error "unexpected end of JSON input"
              | c₃ :: cs₃ =>
                if c₃ == '"' then
                  match parseStringRest cs₃ with
                  | .error msg => .error msg
                  | .ok (value, rest₂) =>
                    match skipWs rest₂ with
                    | [] => .error "unexpected end of JSON input"
                    | c₄ :: cs₄ =>
                      if c₄ == ',' then
                        match parseMembersAux fuel cs₄ with
                        | .ok (ms, r) => .ok ((key, value) :: ms, r)
                        | .error msg => .error msg
                      else if c₄ == '\x7d' then .ok ([(key, value)], cs₄)
                      else
                        .error ("invalid character '" ++ String.singleton c₄ ++
                          "' after object key:value pair")
                else
                  .error ("invalid character '" ++ String.singleton c₃ ++
                    "' looking for beginning of value")
            else
              .error ("invalid character '" ++ String.singleton c₂ ++
                "' after object key")
      else
        .error ("invalid character '" ++ String.singleton c ++
          "' looking for beginning of object key string")

/-- Applies one decoded object member to the configuration record,
matching the json struct tags of pluginConfig; unknown keys are ignored. -/
def applyMember (c : pluginConfig) (kv : String × String) : pluginConfig :=
  if kv.1 == "account" then { c with Account := kv.2 }
  else if kv.1 == "username" then { c with Username := kv.2 }
  else if kv.1 == "role" then { c with Role := kv.2 }
  else if kv.1 == "warehouse" then { c with Warehouse := kv.2 }
  else if kv.1 == "database" then { c with Database := kv.2 }
  else if kv.1 == "schema" then { c with Schema := kv.2 }
  else if kv.1 == "extraConfig" then { c with ExtraConfig := kv.2 }
  else c

/-- Modelled from Go's encoding/json Unmarshal of pluginConfig, restricted
to documents that are objects with string values (the only shape the
record's all-string fields accept): parses the object and folds its
members over the zero configuration, later members overriding earlier
ones; Go's error strings for truncated input are reproduced verbatim. -/
def jsonUnmarshalPluginConfig (s : String) : Except String pluginConfig :=
  match skipWs s.data with
  | [] => .error "unexpected end of JSON input"
  | c :: cs =>
    if c == '\x7b' then
      match skipWs cs with
      | [] => .error "unexpected end of JSON input"
      | c₂ :: cs₂ =>
        if c₂ == '\x7d' then
          if (skipWs cs₂).isEmpty then .ok {}
          else
            .error ("invalid character '" ++
              String.singleton ((skipWs cs₂).headD ' ') ++ "' after top-level value")
        else
          match parseMembersAux (cs.length + 1) (c₂ :: cs₂) with
          | .error msg => .error msg
          | .ok (ms, rest) =>
            if (skipWs rest).isEmpty then .ok (ms.foldl applyMember {})
            else
              .error ("invalid character '" ++
                String.singleton ((skipWs rest).headD ' ') ++ "' after top-level value")
    else .error ("invalid character '" ++ String.singleton c ++
      "' looking for beginning of value")

/-- getConfig of pkg/snowflake.go: unmarshals the settings' JSON bytes
into a pluginConfig, propagating any decode error unchanged. -/
def getConfig (settings : DataSourceInstanceSettings) : Except String pluginConfig :=
  match jsonUnmarshalPluginConfig settings.JSONData with
  | .error e => .error e
  | .ok config => .ok config

/-! ### The health-check validator -/

/-- Health statuses of the plugin SDK used by the validator. -/
inductive HealthStatus where
  | unknown
  | ok
  | healthError
deriving DecidableEq, Repr

/-- The backend.CheckHealthResult pair of status and message. -/
structure CheckHealthResult where
  Status : HealthStatus
  Message : String
deriving DecidableEq, Repr

/-- The backend.CheckHealthRequest wrapper around the plugin context. -/
structure CheckHealthRequest where
  PluginContext : PluginContext
deriving DecidableEq, Repr

/-- The extraConfig amendment the validator applies before assembling the
connection string: validateDefaultParameters=true is appended after the
operator-supplied fragment, with a joining ampersand when that fragment is
non-empty. -/
def validatedExtra (e : String) : String :=
  if e.length > 0 then e ++ "&validateDefaultParameters=true"
  else "validateDefaultParameters=true"

/-- Modelled from the spec: createAndValidationConnectionString, the
Validator / Health-Check Orchestrator of section 4.4, whose source file
is not part of the sources provided (only its test is). It reads the two
secrets, fails fast when both are empty, decodes the configuration
(failing with the decode error prefixed by the fixed label the test
shows), checks account and username presence, builds the query tag,
amends extraConfig with validateDefaultParameters=true as the test's
expected strings show, and assembles the connection string. The pair
mirrors the Go (string, *backend.CheckHealthResult) return: a successful
call returns the descriptor and no result. -/
def createAndValidationConnectionString (req : CheckHealthRequest) :
    String × Option CheckHealthResult :=
  let settings := req.PluginContext.DataSourceInstanceSettings
  let password := mapGet settings.DecryptedSecureJSONData "password"
  let privateKey := mapGet settings.DecryptedSecureJSONData "privateKey"
  if password == "" && privateKey == "" then
    ("", some ⟨.healthError, "Password or private key are required."⟩)
  else
    match getConfig settings with
    | .error e => ("", some ⟨.healthError, "Error getting config: " ++ e⟩)
    | .ok config =>
      if config.Account == "" then ("", some ⟨.healthError, "Account not provided"⟩)
      else if config.Username == "" then
        ("", some ⟨.healthError, "Username not provided"⟩)
      else
        match queryTagFromContext req.PluginContext with
        | .error e => ("", some ⟨.healthError, e⟩)
        | .ok queryTag =>
          (getConnectionString { config with ExtraConfig := validatedExtra config.ExtraConfig }
            password privateKey queryTag, none)

/-- Key sequence of the encoded parameter segment, in the order
url.Values.Encode emits the parameters. -/
def encodedKeyOrder (config : pluginConfig) (privateKey queryTag : String) : List String :=
  (sortPairs (connParams config privateKey queryTag)).map (fun p => p.1)

/-- The fifth test request of the repository's validator test: account
test, username user, password pass, no private key, no extraConfig,
organization id 0, no user identity. -/
def c1req : CheckHealthRequest :=
  { PluginContext := { DataSourceInstanceSettings :=
      { JSONData := "\x7b\"account\":\"test\",\"username\":\"user\"\x7d",
        DecryptedSecureJSONData := [("password", "pass")] } } }

/-- The sixth test request of the repository's validator test, whose
configuration carries extraConfig config=conf. -/
def c2req : CheckHealthRequest :=
  { PluginContext := { DataSourceInstanceSettings :=
      { JSONData := "\x7b\"account\":\"test\",\"username\":\"user\",\"extraConfig\":\"config=conf\"\x7d",
        DecryptedSecureJSONData := [("password", "pass")] } } }


/-! ### Helper facts about the embedding -/

theorem escData_append (f : Char → List Char) (l₁ l₂ : List Char) :
    escData f (l₁ ++ l₂) = escData f l₁ ++ escData f l₂ := by
  induction l₁ with
  | nil => rfl
  | cons c cs ih => simp [escData, ih]

theorem escapeUserinfo_append (a b : String) :
    escapeUserinfo (a ++ b) = escapeUserinfo a ++ escapeUserinfo b := by
  apply String.ext
  simp [escapeUserinfo, String.data_append, escData_append]

theorem mem_insertPair {p q : String × String} {l : List (String × String)} :
    q ∈ insertPair p l ↔ q = p ∨ q ∈ l := by
  induction l with
  | nil => simp [insertPair]
  | cons r rs ih =>
    by_cases h : charListLe p.1.data r.1.data = true
    · simp [insertPair, h]
    · simp only [insertPair, if_neg h, List.mem_cons, ih]
      tauto

theorem mem_sortPairs {p : String × String} {l : List (String × String)} :
    p ∈ sortPairs l ↔ p ∈ l := by
  induction l with
  | nil => simp [sortPairs]
  | cons r rs ih => simp [sortPairs, mem_insertPair, ih]

theorem isInfix_append_left {α : Type} (a : List α) {l m : List α}
    (h : l <:+: m) : l <:+: a ++ m := by
  obtain ⟨s, t, hst⟩ := h
  exact ⟨a ++ s, t, by rw [← hst]; simp [List.append_assoc]⟩

theorem isInfix_append_right {α : Type} (b : List α) {l m : List α}
    (h : l <:+: m) : l <:+: m ++ b := by
  obtain ⟨s, t, hst⟩ := h
  exact ⟨s, t ++ b, by rw [← hst]; simp [List.append_assoc]⟩

theorem isSuffix_append_left {α : Type} (a : List α) {l m : List α}
    (h : l <:+ m) : l <:+ a ++ m := by
  obtain ⟨s, hs⟩ := h
  exact ⟨a ++ s, by rw [← hs]; simp [List.append_assoc]⟩

theorem encodePair_infix {p : String × String} {l : List (String × String)}
    (h : p ∈ l) : (encodePair p).data <:+: (encodePairsStr l).data := by
  induction l with
  | nil => cases h
  | cons r rs ih =>
    cases rs with
    | nil =>
      rcases List.mem_singleton.mp h with rfl
      exact List.infix_rfl
    | cons r₂ rs₂ =>
      rcases List.mem_cons.mp h with rfl | hmem
      · exact ⟨[], ((("&" : String) ++ encodePairsStr (r₂ :: rs₂))).data, by
          simp [encodePairsStr, String.data_append]⟩
      · have := ih hmem
        have h₂ : (encodePair p).data <:+:
            (("&" : String) ++ encodePairsStr (r₂ :: rs₂)).data := by
          rw [String.data_append]
          exact isInfix_append_left _ this
        have h₃ := isInfix_append_left (encodePair r).data h₂
        simpa [encodePairsStr, String.data_append, List.append_assoc] using h₃

theorem valuesEncode_infix {p : String × String} {l : List (String × String)}
    (h : p ∈ l) : (encodePair p).data <:+: (valuesEncode l).data :=
  encodePair_infix (mem_sortPairs.mpr h)

theorem infix_getConnectionString {x : List Char} (config : pluginConfig)
    (password privateKey queryTag : String)
    (h : x <:+: (valuesEncode (connParams config privateKey queryTag)).data) :
    x <:+: (getConnectionString config password privateKey queryTag).data := by
  obtain ⟨s, t, hst⟩ := h
  refine ⟨(userPassOf config password privateKey).data ++ '@' :: config.Account.data ++
    '?' :: s, t ++ '&' :: config.ExtraConfig.data, ?_⟩
  rw [getConnectionString]
  simp only [String.data_append]
  rw [← hst]
  simp [List.append_assoc]

theorem string_length_eq_zero_iff (s : String) : s.length = 0 ↔ s = "" := by
  cases s with
  | mk data =>
    simp [String.length, String.ext_iff, List.length_eq_zero]

/-! ### Claim C9: the account value is reproduced verbatim, unescaped -/

/-- C9: for every configuration, the assembled descriptor places the
account value directly after the at-sign separator with no escaping: the
descriptor decomposes as the credential part, an at-sign, the account
bit-for-bit verbatim, a question mark, the encoded parameters, an
ampersand and the extraConfig, and in particular the at-sign, account and
question mark appear contiguously and verbatim inside the descriptor. -/
theorem c9_account_verbatim (config : pluginConfig) (password privateKey queryTag : String) :
    getConnectionString config password privateKey queryTag =
      userPassOf config password privateKey ++ "@" ++ config.Account ++ "?" ++
        valuesEncode (connParams config privateKey queryTag) ++ "&" ++ config.ExtraConfig ∧
    ('@' :: config.Account.data ++ ['?']) <:+:
      (getConnectionString config password privateKey queryTag).data := by
  constructor
  · rfl
  · refine ⟨(userPassOf config password privateKey).data,
      (valuesEncode (connParams config privateKey queryTag)).data ++
        '&' :: config.ExtraConfig.data, ?_⟩
    rw [getConnectionString]
    simp [String.data_append, List.append_assoc]

/-! ### Claim C10: the query-tag encoder never fails -/

/-- C10: for every plugin context, queryTagFromContext returns a
successful result; the serialization-failure branch of the Go code is
unreachable because the tag record consists only of strings, an integer
and booleans, whose JSON marshaling is total. -/
theorem c10_query_tag_total (pc : PluginContext) :
    ∃ s : String, queryTagFromContext pc = .ok s ∧
      s = marshalQueryTagData (queryTagRecord pc) :=
  ⟨marshalQueryTagData (queryTagRecord pc), rfl, rfl⟩

/-! ### Claim C3: private-key mode -/

/-- C3: whenever the private key argument is non-empty, the descriptor
contains the authenticator=SNOWFLAKE_JWT parameter and a privateKey
parameter carrying the (form-encoded) key, its credential part before the
at-sign is the escaped username alone, and the descriptor is independent
of the password argument, so a supplied password never reaches the
output. -/
theorem c3_private_key_mode (config : pluginConfig)
    (password privateKey queryTag : String) (h : privateKey ≠ "") :
    ("authenticator", "SNOWFLAKE_JWT") ∈ connParams config privateKey queryTag ∧
    ("authenticator=SNOWFLAKE_JWT" : String).data <:+:
      (getConnectionString config password privateKey queryTag).data ∧
    (("privateKey=" : String) ++ queryEscape privateKey).data <:+:
      (getConnectionString config password privateKey queryTag).data ∧
    getConnectionString config password privateKey queryTag =
      escapeUserinfo config.Username ++ "@" ++ config.Account ++ "?" ++
        valuesEncode (connParams config privateKey queryTag) ++ "&" ++ config.ExtraConfig ∧
    getConnectionString config password privateKey queryTag =
      getConnectionString config "" privateKey queryTag := by
  have hne : privateKey.length ≠ 0 :=
    fun hl => h ((string_length_eq_zero_iff privateKey).mp hl)
  have hlen : (privateKey.length == 0) = false := beq_eq_false_iff_ne.mpr hne
  have hmemA : ("authenticator", "SNOWFLAKE_JWT") ∈ connParams config privateKey queryTag := by
    cases hq : (queryTag == "") <;> simp [connParams, hlen, hq]
  have hmemP : ("privateKey", privateKey) ∈ connParams config privateKey queryTag := by
    cases hq : (queryTag == "") <;> simp [connParams, hlen, hq]
  refine ⟨hmemA, ?_, ?_, ?_, ?_⟩
  · have hinf := valuesEncode_infix hmemA
    have henc : encodePair ("authenticator", "SNOWFLAKE_JWT") =
        "authenticator=SNOWFLAKE_JWT" := rfl
    rw [henc] at hinf
    exact infix_getConnectionString config password privateKey queryTag hinf
  · have hinf := valuesEncode_infix hmemP
    have henc : encodePair ("privateKey", privateKey) =
        ("privateKey=" : String) ++ queryEscape privateKey := rfl
    rw [henc] at hinf
    exact infix_getConnectionString config password privateKey queryTag hinf
  · simp [getConnectionString, userPassOf, hlen]
  · simp [getConnectionString, userPassOf, hlen]

/-- Witness for C3 at the inputs of the repository's private-key test:
the hypothesis holds at the key value privateKey, and the descriptor is
then independent of the password argument. -/
theorem c3_private_key_mode_witness :
    ("privateKey" : String) ≠ "" ∧
    getConnectionString
      { Account := "account", Database := "database", Role := "role",
        Schema := "schema", Username := "username", Warehouse := "warehouse",
        ExtraConfig := "conf=xxx" } "password" "privateKey" "" =
    getConnectionString
      { Account := "account", Database := "database", Role := "role",
        Schema := "schema", Username := "username", Warehouse := "warehouse",
        ExtraConfig := "conf=xxx" } "" "privateKey" "" :=
  ⟨by decide,
   (c3_private_key_mode
      { Account := "account", Database := "database", Role := "role",
        Schema := "schema", Username := "username", Warehouse := "warehouse",
        ExtraConfig := "conf=xxx" } "password" "privateKey" "" (by decide)).2.2.2.2⟩

/-! ### Claim C4: userinfo escaping in password mode -/

/-- C4: with an empty private key the credential part of the descriptor is
the userinfo-escaped username, a colon, and the userinfo-escaped password;
that escaper turns an at-sign into %40 and a slash into %2F wherever they
occur in either field, while dollar and ampersand pass through
literally. -/
theorem c4_userinfo_escaping (config : pluginConfig)
    (password privateKey queryTag : String) (h : privateKey = "") :
    getConnectionString config password privateKey queryTag =
      escapeUserinfo config.Username ++ ":" ++ escapeUserinfo password ++ "@" ++
        config.Account ++ "?" ++ valuesEncode (connParams config privateKey queryTag) ++
        "&" ++ config.ExtraConfig ∧
    (∀ s t : String,
      escapeUserinfo (s ++ "@" ++ t) = escapeUserinfo s ++ "%40" ++ escapeUserinfo t) ∧
    (∀ s t : String,
      escapeUserinfo (s ++ "/" ++ t) = escapeUserinfo s ++ "%2F" ++ escapeUserinfo t) ∧
    (∀ s t : String,
      escapeUserinfo (s ++ "$" ++ t) = escapeUserinfo s ++ "$" ++ escapeUserinfo t) ∧
    (∀ s t : String,
      escapeUserinfo (s ++ "&" ++ t) = escapeUserinfo s ++ "&" ++ escapeUserinfo t) := by
  subst h
  refine ⟨by simp [getConnectionString, userPassOf], ?_, ?_, ?_, ?_⟩
  all_goals
    intro s t
    rw [escapeUserinfo_append, escapeUserinfo_append]
    rfl

/-- Witness for C4 at the inputs of the repository's escaping test: the
empty private key satisfies the hypothesis, and the at-sign of the
username user@name is rendered as %40. -/
theorem c4_userinfo_escaping_witness :
    ("" : String) = "" ∧
    escapeUserinfo ("user" ++ "@" ++ "name") =
      escapeUserinfo "user" ++ "%40" ++ escapeUserinfo "name" :=
  ⟨rfl,
   (c4_userinfo_escaping
      { Account := "acc@ount", Database := "dat@base", Role := "ro@le",
        Schema := "sch@ema", Username := "user@name", Warehouse := "ware@house",
        ExtraConfig := "conf=xxx" } "pa$$s&" "" "" rfl).2.1 "user" "name"⟩

/-! ### Claim C5: classification of the query tag -/

/-- C5: the query-tag encoder classifies by first match: no user yields the
backend flag with all identity fields empty; a user whose name, login and
email are all empty yields the anonymous flag with the role still
propagated; any other user yields neither flag and all four identity
fields propagated verbatim. -/
theorem c5_query_tag_classification (pc : PluginContext) :
    (pc.User = none →
      queryTagRecord pc = { Job := "Grafana", OrgId := pc.OrgID, IsBackend := true }) ∧
    (∀ u : User, pc.User = some u → u.Name = "" → u.Login = "" → u.Email = "" →
      queryTagRecord pc =
        { Job := "Grafana", OrgId := pc.OrgID, IsAnonymous := true,
          UserRole := u.Role }) ∧
    (∀ u : User, pc.User = some u → ¬(u.Name = "" ∧ u.Login = "" ∧ u.Email = "") →
      queryTagRecord pc =
        { Job := "Grafana", OrgId := pc.OrgID, UserName := u.Name,
          UserLogin := u.Login, UserEmail := u.Email, UserRole := u.Role }) := by
  refine ⟨fun h => by simp [queryTagRecord, h], ?_, ?_⟩
  · rintro ⟨n, lg, em, r⟩ hu h1 h2 h3
    simp only at h1 h2 h3
    subst h1; subst h2; subst h3
    simp [queryTagRecord, hu]
  · rintro ⟨n, lg, em, r⟩ hu hne
    simp only at hne
    have hdiff : (({ Role := r } : User) = User.mk n lg em r) = False := by
      simp only [User.mk.injEq, eq_self_iff_true, and_true]
      refine eq_false fun hc => hne ⟨hc.1.symm, hc.2.1.symm, hc.2.2.symm⟩
    simp [queryTagRecord, hu, hdiff]

/-- Witness for C5 at the anonymous test context of the repository: a user
with only defaults satisfies the second branch's hypotheses and the tag
record carries the anonymous flag. -/
theorem c5_query_tag_classification_witness :
    ({ OrgID := 123, User := some {} } : PluginContext).User = some {} ∧
    queryTagRecord { OrgID := 123, User := some {} } =
      { Job := "Grafana", OrgId := 123, IsAnonymous := true, UserRole := "" } :=
  ⟨rfl,
   (c5_query_tag_classification { OrgID := 123, User := some {} }).2.1
     {} rfl rfl rfl rfl⟩

/-! ### Claim C6: the encoded parameter segment -/

/-- Key sequence of the encoded parameter segment, in the order
url.Values.Encode emits the parameters. -/
theorem sortPairs_base (vR vW vD vS : String) :
    sortPairs [("role", vR), ("warehouse", vW), ("database", vD), ("schema", vS)] =
    [("database", vD), ("role", vR), ("schema", vS), ("warehouse", vW)] := rfl

theorem sortPairs_tag (vR vW vD vS tag : String) :
    sortPairs [("role", vR), ("warehouse", vW), ("database", vD), ("schema", vS),
      ("QUERY_TAG", tag)] =
    [("QUERY_TAG", tag), ("database", vD), ("role", vR), ("schema", vS),
      ("warehouse", vW)] := rfl

theorem sortPairs_key (vR vW vD vS pk : String) :
    sortPairs [("role", vR), ("warehouse", vW), ("database", vD), ("schema", vS),
      ("authenticator", "SNOWFLAKE_JWT"), ("privateKey", pk)] =
    [("authenticator", "SNOWFLAKE_JWT"), ("database", vD), ("privateKey", pk),
      ("role", vR), ("schema", vS), ("warehouse", vW)] := rfl

theorem sortPairs_tag_key (vR vW vD vS tag pk : String) :
    sortPairs [("role", vR), ("warehouse", vW), ("database", vD), ("schema", vS),
      ("QUERY_TAG", tag), ("authenticator", "SNOWFLAKE_JWT"), ("privateKey", pk)] =
    [("QUERY_TAG", tag), ("authenticator", "SNOWFLAKE_JWT"), ("database", vD),
      ("privateKey", pk), ("role", vR), ("schema", vS), ("warehouse", vW)] := rfl

/-- C6: the encoded parameter segment of every descriptor carries the keys
role, warehouse, database and schema even when their values are empty,
carries QUERY_TAG exactly when the supplied tag string is non-empty, emits
its keys sorted ascending in byte order (the alphabetically stable order
of Go's sort), and is embedded as the parameter segment of the
descriptor. -/
theorem c6_param_keys (config : pluginConfig) (password privateKey queryTag : String) :
    "role" ∈ encodedKeyOrder config privateKey queryTag ∧
    "warehouse" ∈ encodedKeyOrder config privateKey queryTag ∧
    "database" ∈ encodedKeyOrder config privateKey queryTag ∧
    "schema" ∈ encodedKeyOrder config privateKey queryTag ∧
    ("QUERY_TAG" ∈ encodedKeyOrder config privateKey queryTag ↔ queryTag ≠ "") ∧
    List.Sorted (fun a b : String => charListLe a.data b.data = true)
      (encodedKeyOrder config privateKey queryTag) ∧
    (valuesEncode (connParams config privateKey queryTag)).data <:+:
      (getConnectionString config password privateKey queryTag).data := by
  have hembed : (valuesEncode (connParams config privateKey queryTag)).data <:+:
      (getConnectionString config password privateKey queryTag).data :=
    infix_getConnectionString config password privateKey queryTag List.infix_rfl
  cases hq : (queryTag == "") with
  | true =>
    have htq : queryTag = "" := by simpa using hq
    cases hp : (privateKey.length == 0) with
    | true =>
      have hcp : connParams config privateKey queryTag =
          [("role", config.Role), ("warehouse", config.Warehouse),
           ("database", config.Database), ("schema", config.Schema)] := by
        simp [connParams, hq, hp]
      have hk : encodedKeyOrder config privateKey queryTag =
          ["database", "role", "schema", "warehouse"] := by
        rw [encodedKeyOrder, hcp, sortPairs_base]
        rfl
      rw [hk]
      refine ⟨by decide, by decide, by decide, by decide, ?_, by decide, hembed⟩
      simp [htq]
    | false =>
      have hcp : connParams config privateKey queryTag =
          [("role", config.Role), ("warehouse", config.Warehouse),
           ("database", config.Database), ("schema", config.Schema),
           ("authenticator", "SNOWFLAKE_JWT"), ("privateKey", privateKey)] := by
        simp [connParams, hq, hp]
      have hk : encodedKeyOrder config privateKey queryTag =
          ["authenticator", "database", "privateKey", "role", "schema", "warehouse"] := by
        rw [encodedKeyOrder, hcp, sortPairs_key]
        rfl
      rw [hk]
      refine ⟨by decide, by decide, by decide, by decide, ?_, by decide, hembed⟩
      simp [htq]
  | false =>
    have htq : queryTag ≠ "" := by simpa using hq
    cases hp : (privateKey.length == 0) with
    | true =>
      have hcp : connParams config privateKey queryTag =
          [("role", config.Role), ("warehouse", config.Warehouse),
           ("database", config.Database), ("schema", config.Schema),
           ("QUERY_TAG", queryTag)] := by
        simp [connParams, hq, hp]
      have hk : encodedKeyOrder config privateKey queryTag =
          ["QUERY_TAG", "database", "role", "schema", "warehouse"] := by
        rw [encodedKeyOrder, hcp, sortPairs_tag]
        rfl
      rw [hk]
      refine ⟨by decide, by decide, by decide, by decide, ?_, by decide, hembed⟩
      simp [htq]
    | false =>
      have hcp : connParams config privateKey queryTag =
          [("role", config.Role), ("warehouse", config.Warehouse),
           ("database", config.Database), ("schema", config.Schema),
           ("QUERY_TAG", queryTag),
           ("authenticator", "SNOWFLAKE_JWT"), ("privateKey", privateKey)] := by
        simp [connParams, hq, hp]
      have hk : encodedKeyOrder config privateKey queryTag =
          ["QUERY_TAG", "authenticator", "database", "privateKey", "role",
            "schema", "warehouse"] := by
        rw [encodedKeyOrder, hcp, sortPairs_tag_key]
        rfl
      rw [hk]
      refine ⟨by decide, by decide, by decide, by decide, ?_, by decide, hembed⟩
      simp [htq]

/-- Witness for C6 at the query-tag test inputs of the repository: the
QUERY_TAG key is present exactly because the tag mytag is non-empty. -/
theorem c6_param_keys_witness :
    "QUERY_TAG" ∈ encodedKeyOrder
      { Account := "account", Database := "database", Role := "role",
        Schema := "schema", Username := "username", Warehouse := "warehouse",
        ExtraConfig := "conf=xxx" } "" "mytag" :=
  ((c6_param_keys
      { Account := "account", Database := "database", Role := "role",
        Schema := "schema", Username := "username", Warehouse := "warehouse",
        ExtraConfig := "conf=xxx" } "p@sswor/d" "" "mytag").2.2.2.2.1).mpr (by decide)

/-! ### Claim C7: missing credentials fail first -/

/-- C7: whenever both the password and the private key secrets are empty
or absent, the validator terminates at its first check with an
error-status result carrying exactly the message
"Password or private key are required.", regardless of the configuration
bytes or any other field of the request. -/
theorem c7_missing_credentials (req : CheckHealthRequest)
    (hpw : mapGet req.PluginContext.DataSourceInstanceSettings.DecryptedSecureJSONData
      "password" = "")
    (hpk : mapGet req.PluginContext.DataSourceInstanceSettings.DecryptedSecureJSONData
      "privateKey" = "") :
    createAndValidationConnectionString req =
      ("", some ⟨.healthError, "Password or private key are required."⟩) := by
  simp [createAndValidationConnectionString, hpw, hpk]

/-- Witness for C7 at the first test case of the repository: an empty
password entry and no private key entry, with arbitrary other fields. -/
theorem c7_missing_credentials_witness :
    mapGet (({ PluginContext := { DataSourceInstanceSettings :=
        { DecryptedSecureJSONData := [("password", "")] } } } :
      CheckHealthRequest)).PluginContext.DataSourceInstanceSettings.DecryptedSecureJSONData
      "password" = "" ∧
    createAndValidationConnectionString
      { PluginContext := { DataSourceInstanceSettings :=
          { DecryptedSecureJSONData := [("password", "")] } } } =
      ("", some ⟨.healthError, "Password or private key are required."⟩) :=
  ⟨rfl,
   c7_missing_credentials
     { PluginContext := { DataSourceInstanceSettings :=
         { DecryptedSecureJSONData := [("password", "")] } } } rfl rfl⟩

/-! ### Claim C8: decode errors propagate verbatim -/

/-- C8: when the configuration bytes are malformed, getConfig fails with
the underlying parse failure message unmodified, and the validator (given
a credential so that it reaches the decode step) surfaces that exact text
verbatim behind the fixed label "Error getting config: ". -/
theorem c8_decode_error_propagation (settings : DataSourceInstanceSettings)
    (e : String) (req : CheckHealthRequest)
    (hparse : jsonUnmarshalPluginConfig settings.JSONData = .error e)
    (hreq : req.PluginContext.DataSourceInstanceSettings = settings)
    (hcred : ¬(mapGet settings.DecryptedSecureJSONData "password" = "" ∧
               mapGet settings.DecryptedSecureJSONData "privateKey" = "")) :
    getConfig settings = .error e ∧
    createAndValidationConnectionString req =
      ("", some ⟨.healthError, "Error getting config: " ++ e⟩) := by
  have hgc : getConfig settings = .error e := by rw [getConfig, hparse]
  have hb : ((mapGet settings.DecryptedSecureJSONData "password" == "") &&
      (mapGet settings.DecryptedSecureJSONData "privateKey" == "")) = false := by
    rcases not_and_or.mp hcred with h | h
    · simp [beq_eq_false_iff_ne.mpr h]
    · simp [beq_eq_false_iff_ne.mpr h]
  refine ⟨hgc, ?_⟩
  simp [createAndValidationConnectionString, hreq, hb, hgc]

/-- Witness for C8 at the second test case of the repository: the input
consisting of a lone opening brace fails to parse with Go's message
"unexpected end of JSON input", and the validator surfaces exactly that
text behind the fixed label. -/
theorem c8_decode_error_propagation_witness :
    jsonUnmarshalPluginConfig "\x7b" = .error "unexpected end of JSON input" ∧
    createAndValidationConnectionString
      { PluginContext := { DataSourceInstanceSettings :=
          { JSONData := "\x7b",
            DecryptedSecureJSONData := [("password", "pass")] } } } =
      ("", some ⟨.healthError, "Error getting config: unexpected end of JSON input"⟩) :=
  ⟨rfl,
   (c8_decode_error_propagation
     { JSONData := "\x7b", DecryptedSecureJSONData := [("password", "pass")] }
     "unexpected end of JSON input"
     { PluginContext := { DataSourceInstanceSettings :=
         { JSONData := "\x7b",
           DecryptedSecureJSONData := [("password", "pass")] } } }
     rfl rfl (by decide)).2⟩

/-! ### Claim C1: the concrete backend descriptor -/

/-- C1: on the backend request with account test, username user, password
pass, no private key, no extraConfig and organization id 0, the validator
succeeds and produces exactly the expected descriptor, with the backend
tag JSON percent-encoded as the QUERY_TAG value. -/
theorem c1_validator_concrete_descriptor :
    createAndValidationConnectionString c1req =
      ("user:pass@test?QUERY_TAG=%7B%22job%22%3A%22Grafana%22%2C%22org_id%22%3A0%2C%22is_backend%22%3Atrue%7D&database=&role=&schema=&warehouse=&validateDefaultParameters=true",
       none) := by
  rfl

/-! ### Claim C2: where the extraConfig fragment lands -/

/-- C2 counterexample: the validator's success case at the repository's
own sixth test input decodes extraConfig config=conf, succeeds, and yields
exactly the descriptor the test expects, yet that descriptor does NOT end
with the literal extraConfig value, because
validateDefaultParameters=true is appended after it. -/
theorem c2_counterexample :
    getConfig c2req.PluginContext.DataSourceInstanceSettings =
      .ok { Account := "test", Username := "user", ExtraConfig := "config=conf" } ∧
    (createAndValidationConnectionString c2req).2 = none ∧
    (createAndValidationConnectionString c2req).1 =
      "user:pass@test?QUERY_TAG=%7B%22job%22%3A%22Grafana%22%2C%22org_id%22%3A0%2C%22is_backend%22%3Atrue%7D&database=&role=&schema=&warehouse=&config=conf&validateDefaultParameters=true" ∧
    ¬ (("config=conf" : String).data <:+ (createAndValidationConnectionString c2req).1.data) := by
    refine ⟨rfl, rfl, rfl, ?_⟩
    rw [← List.isSuffixOf_iff_suffix]
    decide

/-- Characterization of the validator's success case: a successful call
went through configuration decoding and produced the assembler's output
on the decoded configuration with the amended extraConfig and the
marshaled query tag. -/
theorem createAndValidation_success {req : CheckHealthRequest} {conn : String}
    (h : createAndValidationConnectionString req = (conn, none)) :
    ∃ config : pluginConfig,
      getConfig req.PluginContext.DataSourceInstanceSettings = .ok config ∧
      conn = getConnectionString
        { config with ExtraConfig := validatedExtra config.ExtraConfig }
        (mapGet req.PluginContext.DataSourceInstanceSettings.DecryptedSecureJSONData
          "password")
        (mapGet req.PluginContext.DataSourceInstanceSettings.DecryptedSecureJSONData
          "privateKey")
        (marshalQueryTagData (queryTagRecord req.PluginContext)) := by
  rw [createAndValidationConnectionString] at h
  split at h
  · simp at h
  · split at h
    · simp at h
    · rename_i config hgc
      split at h
      · simp at h
      · split at h
        · simp at h
        · split at h
          · rename_i e hq
            simp [queryTagFromContext] at hq
          · rename_i queryTag hq
            rw [queryTagFromContext] at hq
            injection hq with hq
            subst hq
            exact ⟨config, hgc, by
              have := congrArg Prod.fst h
              simpa using this.symm⟩

/-- C2 amended: the extraConfig value is appended verbatim and unescaped
into every successful descriptor; the assembler's output ends with the
literal extraConfig value, while the validator first extends extraConfig
with validateDefaultParameters=true, so its successful descriptor
contains extraConfig verbatim and ends with that extended fragment. -/
theorem c2_extraConfig_amended :
    (∀ (config : pluginConfig) (password privateKey queryTag : String),
      config.ExtraConfig.data <:+
        (getConnectionString config password privateKey queryTag).data) ∧
    (∀ (req : CheckHealthRequest) (conn : String),
      createAndValidationConnectionString req = (conn, none) →
      ∃ config : pluginConfig,
        getConfig req.PluginContext.DataSourceInstanceSettings = .ok config ∧
        config.ExtraConfig.data <:+: conn.data ∧
        (validatedExtra config.ExtraConfig).data <:+ conn.data) := by
  have hA : ∀ (config : pluginConfig) (password privateKey queryTag : String),
      config.ExtraConfig.data <:+
        (getConnectionString config password privateKey queryTag).data := by
    intro config password privateKey queryTag
    refine ⟨(userPassOf config password privateKey).data ++ '@' :: config.Account.data ++
      '?' :: (valuesEncode (connParams config privateKey queryTag)).data ++ ['&'], ?_⟩
    rw [getConnectionString]
    simp [String.data_append, List.append_assoc]
  refine ⟨hA, ?_⟩
  intro req conn h
  obtain ⟨config, hgc, hconn⟩ := createAndValidation_success h
  have hsuf : (validatedExtra config.ExtraConfig).data <:+ conn.data := by
    rw [hconn]
    exact hA { config with ExtraConfig := validatedExtra config.ExtraConfig } _ _ _
  refine ⟨config, hgc, ?_, hsuf⟩
  have hinf : config.ExtraConfig.data <:+: (validatedExtra config.ExtraConfig).data := by
    rw [validatedExtra]
    rcases hl : decide (config.ExtraConfig.length > 0) with _ | _
    · simp only [decide_eq_false_iff_not, not_lt, Nat.le_zero] at hl
      have hemp : config.ExtraConfig = "" := (string_length_eq_zero_iff _).mp hl
      rw [hemp]
      exact ⟨[], _, rfl⟩
    · simp only [decide_eq_true_eq] at hl
      rw [if_pos hl, String.data_append]
      exact (List.prefix_append _ _).isInfix
  exact hinf.trans hsuf.isInfix

/-- Witness for C2 amended, at the repository's assembler test input and
its sixth validator test input: the assembler output ends with the
literal extraConfig conf=xxx, and the validator's successful descriptor
contains config=conf verbatim and ends with the extended fragment. -/
theorem c2_extraConfig_amended_witness :
    (("conf=xxx" : String).data <:+
      (getConnectionString
        { Account := "account", Database := "database", Role := "role",
          Schema := "schema", Username := "username", Warehouse := "warehouse",
          ExtraConfig := "conf=xxx" } "password" "" "").data) ∧
    (∃ config : pluginConfig,
      getConfig c2req.PluginContext.DataSourceInstanceSettings = .ok config ∧
      config.ExtraConfig.data <:+:
        ("user:pass@test?QUERY_TAG=%7B%22job%22%3A%22Grafana%22%2C%22org_id%22%3A0%2C%22is_backend%22%3Atrue%7D&database=&role=&schema=&warehouse=&config=conf&validateDefaultParameters=true" : String).data ∧
      (validatedExtra config.ExtraConfig).data <:+
        ("user:pass@test?QUERY_TAG=%7B%22job%22%3A%22Grafana%22%2C%22org_id%22%3A0%2C%22is_backend%22%3Atrue%7D&database=&role=&schema=&warehouse=&config=conf&validateDefaultParameters=true" : String).data) :=
  ⟨c2_extraConfig_amended.1
    { Account := "account", Database := "database", Role := "role",
      Schema := "schema", Username := "username", Warehouse := "warehouse",
      ExtraConfig := "conf=xxx" } "password" "" "",
   c2_extraConfig_amended.2 c2req
     "user:pass@test?QUERY_TAG=%7B%22job%22%3A%22Grafana%22%2C%22org_id%22%3A0%2C%22is_backend%22%3Atrue%7D&database=&role=&schema=&warehouse=&config=conf&validateDefaultParameters=true"
     rfl⟩

end Snowflake

namespace Snowflake

example : getConfig { JSONData := "\x7b\x7d" } = .ok {} := by rfl

example : getConfig { JSONData := "\x7b\"account\":\"test\"\x7d" } =
    .ok { Account := "test" } := by rfl

example : getConfig { JSONData := "\x7b" } =
    .error "unexpected end of JSON input" := by rfl

example :
    queryTagFromContext { OrgID := 123 } =
    .ok "\x7b\"job\":\"Grafana\",\"org_id\":123,\"is_backend\":true\x7d" := by
  rfl

example :
    queryTagFromContext { OrgID := 123, User := some {} } =
    .ok "\x7b\"job\":\"Grafana\",\"org_id\":123,\"is_anonymous\":true\x7d" := by
  rfl

example :
    queryTagFromContext
      { OrgID := 123,
        User := some { Name := "Firstname Lastname", Login := "auserlogin",
                       Email := "someone@example.com" } } =
    .ok "\x7b\"job\":\"Grafana\",\"org_id\":123,\"user_login\":\"auserlogin\",\"user_name\":\"Firstname Lastname\",\"user_email\":\"someone@example.com\"\x7d" := by
  rfl

example :
    getConnectionString
      { Account := "account", Database := "database", Role := "role",
        Schema := "schema", Username := "username", Warehouse := "warehouse",
        ExtraConfig := "conf=xxx" } "password" "" "" =
    "username:password@account?database=database&role=role&schema=schema&warehouse=warehouse&conf=xxx" := by
  rfl

example :
    getConnectionString
      { Account := "account", Database := "database", Role := "role",
        Schema := "schema", Username := "username", Warehouse := "warehouse",
        ExtraConfig := "conf=xxx" } "" "privateKey" "" =
    "username@account?authenticator=SNOWFLAKE_JWT&database=database&privateKey=privateKey&role=role&schema=schema&warehouse=warehouse&conf=xxx" := by
  rfl

example :
    getConnectionString
      { Account := "account", Database := "database", Role := "role",
        Schema := "schema", Username := "username", Warehouse := "warehouse",
        ExtraConfig := "conf=xxx" } "p@sswor/d" "" "mytag" =
    "username:p%40sswor%2Fd@account?QUERY_TAG=mytag&database=database&role=role&schema=schema&warehouse=warehouse&conf=xxx" := by
  rfl

example :
    getConnectionString
      { Account := "acc@ount", Database := "dat@base", Role := "ro@le",
        Schema := "sch@ema", Username := "user@name", Warehouse := "ware@house",
        ExtraConfig := "conf=xxx" } "pa$$s&" "" "" =
    "user%40name:pa$$s&@acc@ount?database=dat%40base&role=ro%40le&schema=sch%40ema&warehouse=ware%40house&conf=xxx" := by
  rfl

end Snowflake
